import Mathlib

/-
  Verification of the bootstrap layer of gpt-cli (src/gpt.py).

  Shallow embedding conventions:
  - Python floats carry no arithmetic in this layer (they are only parsed,
    stored and compared), so they are represented by rationals.
  - Python dicts are represented by association lists (first match wins on
    lookup, which agrees with dicts whose keys are unique).
  - `None` becomes `Option.none`; `if x:` on an optional string is Python
    truthiness (`pyTruthy`).
  - Side effects (printing, logging configuration, setting the transport
    credential, session construction, process exit) are recorded explicitly
    in result records.
-/

set_option autoImplicit false

namespace GptCli

/-- Modelled from the spec: the `AssistantConfig` record lives in
`gptcli.assistant`, which is outside the visible slice; the spec gives its
fields as a model identifier plus nullable `temperature` and `top_p`
sampling parameters (3. DATA MODEL). Only the fields touched by
`src/gpt.py` are embedded. -/
structure AssistantConfig where
  model : String
  temperature : Option Rat
  top_p : Option Rat
deriving DecidableEq, Repr

/-- The final runtime object handed to the session: wraps one fully
resolved `AssistantConfig` (src/gpt.py line 34 `Assistant(assistant_config)`). -/
structure Assistant where
  config : AssistantConfig
deriving DecidableEq, Repr

/-- A Python dict from assistant names to configs, as an association list. -/
abbrev AssistantDict := List (String × AssistantConfig)

/-- First-match lookup, the semantics of `d[k]` / `k in d` on a dict. -/
def dictLookup (d : AssistantDict) (k : String) : Option AssistantConfig :=
  match d with
  | [] => none
  | (k', v) :: rest => if k' = k then some v else dictLookup rest k

/-- Replace the value stored at the first occurrence of key `k`.  This models
the in-place mutation of the (shared) config object found at `d[k]`. -/
def dictUpdate (d : AssistantDict) (k : String) (v : AssistantConfig) : AssistantDict :=
  match d with
  | [] => []
  | (k', v') :: rest =>
      if k' = k then (k', v) :: rest else (k', v') :: dictUpdate rest k v

/-- The Python dict-unpacking merge `\x7b**a, **b\x7d`: the result holds the
keys of `a` (with `b`'s value where the key collides) followed by the keys
of `b` that are not in `a` (src/gpt.py line 26). -/
def mergeDicts (a b : AssistantDict) : AssistantDict :=
  a.map (fun p => (p.1, (dictLookup b p.1).getD p.2)) ++
    b.filter (fun p => (dictLookup a p.1).isNone)

/-- Modelled from the spec: `DEFAULT_ASSISTANTS` is imported from
`gptcli.assistant`, outside the visible slice; the spec says the built-in
registry has exactly the two entries named general and dev
(3. DATA MODEL).  The concrete field values are not specified and are not
relied on by any theorem; representative values are used. -/
def DEFAULT_ASSISTANTS : AssistantDict :=
  [("dev", { model := "gpt-3.5-turbo", temperature := none, top_p := none }),
   ("general", { model := "gpt-3.5-turbo", temperature := none, top_p := none })]

/-- The two registries visible to `init_assistant`: the module-level built-in
registry and the persisted config's custom-assistant mapping.  The built-in
one is threaded explicitly because in-place mutation of a looked-up config
object can land in either dict. -/
structure Registries where
  builtin : AssistantDict
  custom : AssistantDict
deriving DecidableEq, Repr

/-- The `ResolvedArgs` produced by `parse_args` (src/gpt.py lines 37-88). -/
structure CLIArgs where
  assistant_name : String
  markdown : Bool
  model : Option String
  temperature : Option Rat
  top_p : Option Rat
  log_file : Option String
  log_level : String
deriving DecidableEq, Repr

/-- The three field-independent override assignments of `init_assistant`
(src/gpt.py lines 28-33): each of temperature, model and top_p is written
onto the looked-up config exactly when the CLI value is not `None`. -/
def applyOverrides (args : CLIArgs) (base : AssistantConfig) : AssistantConfig :=
  let c1 := match args.temperature with
    | some t => { base with temperature := some t }
    | none => base
  let c2 := match args.model with
    | some m => { c1 with model := m }
    | none => c1
  match args.top_p with
  | some p => { c2 with top_p := some p }
  | none => c2

/-- `init_assistant` (src/gpt.py lines 25-34).  Builds the merged lookup
table `\x7b**DEFAULT_ASSISTANTS, **custom_assistants\x7d`, looks up the
requested name (`none` models the `KeyError` on a missing name), mutates
the looked-up config object in place with the non-null CLI overrides, and
wraps it in an `Assistant`.  Because dict unpacking copies references, the
mutation hits the entry of `custom` when the name is a custom key and the
entry of the built-in registry otherwise; the returned `Registries` are the
two dicts after that mutation. -/
def init_assistant (args : CLIArgs) (regs : Registries) :
    Option (Assistant × Registries) :=
  match dictLookup (mergeDicts regs.builtin regs.custom) args.assistant_name with
  | none => none
  | some base =>
      if (dictLookup regs.custom args.assistant_name).isSome then
        some (⟨applyOverrides args base⟩,
          { regs with
              custom := dictUpdate regs.custom args.assistant_name (applyOverrides args base) })
      else
        some (⟨applyOverrides args base⟩,
          { regs with
              builtin := dictUpdate regs.builtin args.assistant_name (applyOverrides args base) })

/-- Modelled from the spec: `GptCliConfig` lives in `gptcli.config`, outside
the visible slice; the spec gives its fields (3. DATA MODEL
PersistedConfig): default assistant name, markdown flag, optional log file,
log level, optional API credential, custom-assistant mapping. -/
structure GptCliConfig where
  default_assistant : String
  markdown : Bool
  api_key : Option String
  log_file : Option String
  log_level : String
  assistants : AssistantDict
deriving DecidableEq, Repr

/-- Modelled from the spec: the all-default `GptCliConfig()` used when no
config file exists carries an empty custom mapping, no credential, and an
INFO-equivalent log level (3. DATA MODEL; 4.1); the default assistant is
general (6. EXTERNAL INTERFACES / parse_args help text). -/
def defaultGptCliConfig : GptCliConfig :=
  { default_assistant := "general"
    markdown := true
    api_key := none
    log_file := none
    log_level := "INFO"
    assistants := [] }

/-- One command-line invocation as it reaches `parse_args`: which flags were
supplied and with what (already type-converted) values.  `none` means the
flag was absent. -/
structure CommandLine where
  assistant_name : Option String
  no_markdown : Bool
  model : Option String
  temperature : Option Rat
  top_p : Option Rat
  log_file : Option String
  log_level : Option String
deriving DecidableEq, Repr

/-- The `choices` list of the positional argument
(src/gpt.py line 46): `["dev", "general", *config.assistants.keys()]`. -/
def assistantChoices (config : GptCliConfig) : List String :=
  "dev" :: "general" :: config.assistants.map Prod.fst

/-- The `choices` list of `--log_level` (src/gpt.py line 84). -/
def LOG_LEVELS : List String :=
  ["DEBUG", "INFO", "WARNING", "ERROR", "CRITICAL"]

/-- `parse_args` (src/gpt.py lines 37-88).  argparse semantics embedded:
the positional `assistant_name` has `nargs="?"` with
`default=config.default_assistant`, and argparse checks the effective value
(supplied or defaulted) of a positional against `choices`; a failed check
is a usage error, `exit status 2`.  For the optional `--log_level`, only a
supplied value is checked against its choices.  `--no_markdown` is
`store_false` onto `markdown` with `default=config.markdown`; the three
override flags default to `None` unconditionally; `--log_file` and
`--log_level` default from the config. -/
def parse_args (config : GptCliConfig) (cl : CommandLine) : Except Nat CLIArgs :=
  if cl.assistant_name.getD config.default_assistant ∈ assistantChoices config then
    match cl.log_level with
    | some lv =>
        if lv ∈ LOG_LEVELS then
          .ok { assistant_name := cl.assistant_name.getD config.default_assistant
                markdown := if cl.no_markdown then false else config.markdown
                model := cl.model
                temperature := cl.temperature
                top_p := cl.top_p
                log_file := cl.log_file.orElse (fun _ => config.log_file)
                log_level := lv }
        else .error 2
    | none =>
        .ok { assistant_name := cl.assistant_name.getD config.default_assistant
              markdown := if cl.no_markdown then false else config.markdown
              model := cl.model
              temperature := cl.temperature
              top_p := cl.top_p
              log_file := cl.log_file.orElse (fun _ => config.log_file)
              log_level := config.log_level }
  else .error 2

/-- Whether the supplied `--log_level` value (if any) passes its argparse
`choices` check. -/
def logLevelOk (cl : CommandLine) : Bool :=
  match cl.log_level with
  | none => true
  | some lv => decide (lv ∈ LOG_LEVELS)

/-- Python truthiness of an optional string: `None` and the empty string are
falsy, everything else truthy (the `if config.api_key:` test,
src/gpt.py line 110). -/
def pyTruthy (s : Option String) : Bool :=
  match s with
  | none => false
  | some s => s != ""

/-- The instructional message printed when no API key is found
(src/gpt.py lines 113-115). -/
def NO_API_KEY_MSG : String :=
  "No API key found. Please set the OPENAI_API_KEY environment variable or `api_key: <key>` value in ~/.gptrc"

/-- How a run of `main` ends. -/
inductive Outcome where
  /-- `parse_args` rejected the invocation; argparse exits with the code. -/
  | usageError (code : Nat)
  /-- The credential check failed; `sys.exit(1)` (src/gpt.py line 116). -/
  | exitNoKey
  /-- The session's blocking loop was entered (src/gpt.py line 118). -/
  | sessionRun
  /-- The merged table misses the parsed name: the `KeyError` of
  src/gpt.py line 27 (proved unreachable in `init_assistant_total`). -/
  | internalError
deriving DecidableEq, Repr

/-- Everything observable about one run of `main` (src/gpt.py lines 91-118):
what was printed to stdout, what `logging.basicConfig` received, the forced
level of the markdown_it logger, whether the startup info record was
logged, the value of `openai.api_key` after the run, every `ChatSession`
constructed (assistant, markdown flag), how often `loop` was called, how
many `Assistant` objects were constructed, and the exit status if the
process terminated through `sys.exit`/argparse. -/
structure MainResult where
  outcome : Outcome
  printed : List String
  loggingConfig : Option (String × String)
  markdownItLevel : Option String
  infoLogged : Bool
  openai_api_key : Option String
  sessions : List (Assistant × Bool)
  loopCalls : Nat
  assistantsConstructed : Nat
  exitCode : Option Nat
deriving DecidableEq, Repr

/-- The config `main` works with: the file's content when `~/.gptrc` exists,
else `GptCliConfig()` (src/gpt.py lines 92-95). -/
def configOf (fileExists : Bool) (fileConfig : GptCliConfig) : GptCliConfig :=
  if fileExists then fileConfig else defaultGptCliConfig

/-- `main` (src/gpt.py lines 91-118), parameterised by whether the config
file exists, its parsed content when it does, the command line, and the
value of `openai.api_key` before the run.  Sequencing follows the source:
config load, `parse_args` (usage errors exit there), logging setup when a
log file is present (with the markdown_it logger forced to INFO),
`init_assistant` plus the startup info record, the truthiness check of
`config.api_key` (exit 1 with the instructional message when falsy,
otherwise the credential is pushed into `openai.api_key`), and finally one
`ChatSession` construction and one blocking `loop` call. -/
def main (fileExists : Bool) (fileConfig : GptCliConfig) (cl : CommandLine)
    (key0 : Option String) : MainResult :=
  let config := configOf fileExists fileConfig
  match parse_args config cl with
  | .error code =>
      { outcome := .usageError code
        printed := []
        loggingConfig := none
        markdownItLevel := none
        infoLogged := false
        openai_api_key := key0
        sessions := []
        loopCalls := 0
        assistantsConstructed := 0
        exitCode := some code }
  | .ok args =>
      let loggingConfig := args.log_file.map (fun f => (f, args.log_level))
      let markdownItLevel := if args.log_file.isSome then some "INFO" else none
      match init_assistant args { builtin := DEFAULT_ASSISTANTS, custom := config.assistants } with
      | none =>
          { outcome := .internalError
            printed := []
            loggingConfig := loggingConfig
            markdownItLevel := markdownItLevel
            infoLogged := false
            openai_api_key := key0
            sessions := []
            loopCalls := 0
            assistantsConstructed := 0
            exitCode := none }
      | some (assistant, _) =>
          if pyTruthy config.api_key then
            { outcome := .sessionRun
              printed := []
              loggingConfig := loggingConfig
              markdownItLevel := markdownItLevel
              infoLogged := true
              openai_api_key := config.api_key
              sessions := [(assistant, args.markdown)]
              loopCalls := 1
              assistantsConstructed := 1
              exitCode := none }
          else
            { outcome := .exitNoKey
              printed := [NO_API_KEY_MSG]
              loggingConfig := loggingConfig
              markdownItLevel := markdownItLevel
              infoLogged := true
              openai_api_key := key0
              sessions := []
              loopCalls := 0
              assistantsConstructed := 1
              exitCode := some 1 }

/-- The diagnostic events produced by the installed uncaught-exception
handler, in order. -/
inductive HandlerEvent where
  /-- `logging.exception` with `exc_info`: one error-severity record holding
  the exception type, value and traceback (src/gpt.py line 17). -/
  | logError (etype value tb : String)
  /-- A `print` to standard output (src/gpt.py line 18). -/
  | printMsg (msg : String)
  /-- The call into the platform's saved original excepthook
  (src/gpt.py line 19). -/
  | delegateDefault (etype value tb : String)
deriving DecidableEq, Repr

/-- The apology message printed by the handler (src/gpt.py line 18). -/
def APOLOGY_MSG : String :=
  "An uncaught exception occurred. Please report this issue on GitHub."

/-- `exception_handler` (src/gpt.py lines 16-19) as the ordered trace of its
three effects on an intercepted exception. -/
def exception_handler (etype value tb : String) : List HandlerEvent :=
  [.logError etype value tb, .printMsg APOLOGY_MSG, .delegateDefault etype value tb]

/-! ### Concrete inputs used by witnesses and counterexamples -/

/-- A custom assistant named writer, as in the spec's worked example. -/
def cfgWriter : AssistantConfig :=
  { model := "m1", temperature := some 2, top_p := none }

/-- The writer config after the CLI override of temperature to 9. -/
def cfgWriterOverridden : AssistantConfig :=
  { model := "m1", temperature := some 9, top_p := none }

/-- Registries with our one custom assistant. -/
def regsW : Registries :=
  { builtin := DEFAULT_ASSISTANTS, custom := [("writer", cfgWriter)] }

/-- The registries after `init_assistant` applied the temperature override:
the writer entry of the custom dict was mutated in place. -/
def regsW2 : Registries :=
  { builtin := DEFAULT_ASSISTANTS, custom := [("writer", cfgWriterOverridden)] }

/-- Resolved args: writer with a temperature override. -/
def argsW : CLIArgs :=
  { assistant_name := "writer", markdown := true, model := none,
    temperature := some 9, top_p := none,
    log_file := some "gpt.log", log_level := "DEBUG" }

/-- Resolved args: writer with all three overrides absent. -/
def argsNull : CLIArgs :=
  { assistant_name := "writer", markdown := true, model := none,
    temperature := none, top_p := none, log_file := none, log_level := "INFO" }

/-- A persisted config with an API key, a log file and the writer assistant. -/
def fcKey : GptCliConfig :=
  { default_assistant := "general", markdown := true, api_key := some "sk-test",
    log_file := some "gpt.log", log_level := "DEBUG",
    assistants := [("writer", cfgWriter)] }

/-- Command line requesting writer with a temperature override. -/
def clW : CommandLine :=
  { assistant_name := some "writer", no_markdown := false, model := none,
    temperature := some 9, top_p := none, log_file := none, log_level := none }

/-- Command line with every flag absent. -/
def clGeneral : CommandLine :=
  { assistant_name := none, no_markdown := false, model := none,
    temperature := none, top_p := none, log_file := none, log_level := none }

/-- Command line naming an assistant that exists in no registry. -/
def clBadName : CommandLine :=
  { assistant_name := some "writer", no_markdown := false, model := none,
    temperature := none, top_p := none, log_file := none, log_level := none }

/-- What `parse_args fcKey clGeneral` resolves to. -/
def argsGen : CLIArgs :=
  { assistant_name := "general", markdown := true, model := none,
    temperature := none, top_p := none,
    log_file := some "gpt.log", log_level := "DEBUG" }

/-- What `parse_args defaultGptCliConfig clGeneral` resolves to. -/
def argsGenDefault : CLIArgs :=
  { assistant_name := "general", markdown := true, model := none,
    temperature := none, top_p := none, log_file := none, log_level := "INFO" }


/-! ### Dictionary lemmas -/

lemma dictLookup_append (l₁ l₂ : AssistantDict) (k : String) :
    dictLookup (l₁ ++ l₂) k = ((dictLookup l₁ k).orElse fun _ => dictLookup l₂ k) := by
  induction l₁ with
  | nil => simp [dictLookup, Option.orElse]
  | cons p rest ih =>
    obtain ⟨k', v⟩ := p
    by_cases hk : k' = k <;> simp [dictLookup, hk, ih, Option.orElse]

lemma dictLookup_map_values (g : String → AssistantConfig → AssistantConfig)
    (a : AssistantDict) (k : String) :
    dictLookup (a.map fun p => (p.1, g p.1 p.2)) k = (dictLookup a k).map (g k) := by
  induction a with
  | nil => simp [dictLookup]
  | cons p rest ih =>
    obtain ⟨k', v⟩ := p
    by_cases hk : k' = k <;> simp [dictLookup, hk, ih]

lemma dictLookup_filter_keys (q : String → Bool) (b : AssistantDict) (k : String) :
    dictLookup (b.filter fun p => q p.1) k = if q k then dictLookup b k else none := by
  induction b with
  | nil => simp [dictLookup]
  | cons p rest ih =>
    obtain ⟨k', v⟩ := p
    by_cases hk : k' = k
    · subst hk
      by_cases hq : q k' <;> simp [List.filter_cons, dictLookup, hq, ih]
    · by_cases hq : q k' <;> simp [List.filter_cons, dictLookup, hk, hq, ih]

lemma dictLookup_mergeDicts (a b : AssistantDict) (k : String) :
    dictLookup (mergeDicts a b) k =
      match dictLookup b k with
      | some w => some w
      | none => dictLookup a k := by
  rw [mergeDicts, dictLookup_append,
    dictLookup_map_values (fun k0 v => (dictLookup b k0).getD v),
    dictLookup_filter_keys (fun k0 => (dictLookup a k0).isNone)]
  cases ha : dictLookup a k <;> cases hb : dictLookup b k <;>
    simp [ha, hb, Option.orElse]

lemma dictUpdate_lookup_self (d : AssistantDict) (k : String) (v : AssistantConfig)
    (h : dictLookup d k = some v) : dictUpdate d k v = d := by
  induction d with
  | nil => simp [dictLookup] at h
  | cons p rest ih =>
    obtain ⟨k', v'⟩ := p
    by_cases hk : k' = k
    · subst hk
      simp [dictLookup] at h
      simp [dictUpdate, h]
    · simp [dictLookup, hk] at h
      simp [dictUpdate, hk, ih h]

lemma dictLookup_dictUpdate_ne (d : AssistantDict) (k n : String) (v : AssistantConfig)
    (h : n ≠ k) : dictLookup (dictUpdate d k v) n = dictLookup d n := by
  induction d with
  | nil => simp [dictUpdate]
  | cons p rest ih =>
    obtain ⟨k', v'⟩ := p
    by_cases hk : k' = k
    · subst hk
      simp [dictUpdate, dictLookup, Ne.symm h]
    · simp [dictUpdate, dictLookup, hk, ih]

lemma mem_keys_iff_lookup_isSome (d : AssistantDict) (n : String) :
    n ∈ d.map Prod.fst ↔ (dictLookup d n).isSome := by
  induction d with
  | nil => simp [dictLookup]
  | cons p rest ih =>
    obtain ⟨k', v⟩ := p
    by_cases hk : k' = n
    · subst hk
      simp [dictLookup]
    · simp [dictLookup, hk, Ne.symm hk, ih]

/-! ### Inversion of `parse_args` and totality of `init_assistant` -/

lemma parse_args_ok (config : GptCliConfig) (cl : CommandLine) (args : CLIArgs)
    (h : parse_args config cl = .ok args) :
    args.assistant_name = cl.assistant_name.getD config.default_assistant ∧
    args.assistant_name ∈ assistantChoices config ∧
    args.model = cl.model ∧
    args.temperature = cl.temperature ∧
    args.top_p = cl.top_p ∧
    args.markdown = (if cl.no_markdown then false else config.markdown) ∧
    args.log_file = cl.log_file.orElse (fun _ => config.log_file) := by
  unfold parse_args at h
  split at h
  case isTrue hmem =>
    split at h
    · split at h
      · injection h with h2
        subst h2
        simp_all
      · exact Except.noConfusion h
    · injection h with h2
      subst h2
      simp_all
  case isFalse hmem => exact Except.noConfusion h

lemma init_assistant_isSome (config : GptCliConfig) (args : CLIArgs)
    (h : args.assistant_name ∈ assistantChoices config) :
    (init_assistant args
      { builtin := DEFAULT_ASSISTANTS, custom := config.assistants }).isSome := by
  simp only [init_assistant]
  rw [dictLookup_mergeDicts]
  cases hc : dictLookup config.assistants args.assistant_name with
  | some w => simp [hc]
  | none =>
    have h' := h
    simp only [assistantChoices, List.mem_cons] at h'
    have hname : args.assistant_name = "dev" ∨ args.assistant_name = "general" := by
      rcases h' with h1 | h1 | h1
      · exact Or.inl h1
      · exact Or.inr h1
      · exact absurd ((mem_keys_iff_lookup_isSome _ _).mp h1) (by simp [hc])
    rcases hname with hn | hn <;>
      simp [hn, hn ▸ hc, DEFAULT_ASSISTANTS, dictLookup]

/-! ### Claim theorems -/

/-- Claim C1: for every base assistant configuration found in the lookup
table and every CLI invocation, each of the resulting Assistant's fields
model, temperature and top_p equals the CLI override when it is non-null
and the base's original value when it is null; the three merges are
independent of one another. -/
theorem c1_override_merging_field_independent (args : CLIArgs) (regs : Registries)
    (base : AssistantConfig) (a : Assistant) (regs' : Registries)
    (hbase : dictLookup (mergeDicts regs.builtin regs.custom) args.assistant_name = some base)
    (hinit : init_assistant args regs = some (a, regs')) :
    a.config.model = (match args.model with | some m => m | none => base.model) ∧
    a.config.temperature =
      (match args.temperature with | some t => some t | none => base.temperature) ∧
    a.config.top_p = (match args.top_p with | some p => some p | none => base.top_p) := by
  unfold init_assistant at hinit
  split at hinit
  · exact Option.noConfusion hinit
  · rename_i base' heq
    rw [hbase] at heq
    injection heq with hb
    subst hb
    have ha : a.config = applyOverrides args base := by
      split at hinit <;>
        (injection hinit with h2; injection h2 with h3 h4; rw [← h3])
    rw [ha]
    cases hm : args.model <;> cases ht : args.temperature <;> cases hp : args.top_p <;>
      simp [applyOverrides, hm, ht, hp]

/-- Witness for C1 at the spec's worked example: custom assistant writer
with model m1 and temperature 2, CLI override of temperature to 9. -/
theorem c1_override_merging_field_independent_witness :
    dictLookup (mergeDicts regsW.builtin regsW.custom) argsW.assistant_name = some cfgWriter ∧
    init_assistant argsW regsW = some (⟨cfgWriterOverridden⟩, regsW2) ∧
    ((⟨cfgWriterOverridden⟩ : Assistant).config.model =
        (match argsW.model with | some m => m | none => cfgWriter.model) ∧
      (⟨cfgWriterOverridden⟩ : Assistant).config.temperature =
        (match argsW.temperature with | some t => some t | none => cfgWriter.temperature) ∧
      (⟨cfgWriterOverridden⟩ : Assistant).config.top_p =
        (match argsW.top_p with | some p => some p | none => cfgWriter.top_p)) :=
  ⟨by decide, by decide,
    c1_override_merging_field_independent argsW regsW cfgWriter ⟨cfgWriterOverridden⟩ regsW2
      (by decide) (by decide)⟩

/-- Claim C2 is false as stated: constructing the Assistant with a non-null
CLI override mutates the looked-up config object in place, and that object
is the entry of the custom-assistant dict (shared by reference through the
dict-unpacking merge).  Concretely: after resolving writer with a
temperature override of 9, the custom dict's writer entry carries
temperature 9, no longer its original value 2. -/
theorem c2_registry_mutation_counterexample :
    (init_assistant argsW regsW).map (fun p => dictLookup (Prod.snd p).custom "writer") =
      some (some cfgWriterOverridden) ∧
    cfgWriterOverridden ≠ cfgWriter := by
  exact ⟨by decide, by decide⟩

/-- Claim C2 as amended: assistant construction has no effect beyond
creating the Assistant object and, when an override is non-null, mutating
the one looked-up registry entry in place.  When all three overrides are
null both registries are unchanged, and in every case all entries other
than the selected name are untouched in both registries. -/
theorem c2_construction_frame (args : CLIArgs) (regs : Registries)
    (a : Assistant) (regs' : Registries) (n : String)
    (hinit : init_assistant args regs = some (a, regs'))
    (hn : n ≠ args.assistant_name) :
    ((args.model = none ∧ args.temperature = none ∧ args.top_p = none) → regs' = regs) ∧
    dictLookup regs'.custom n = dictLookup regs.custom n ∧
    dictLookup regs'.builtin n = dictLookup regs.builtin n := by
  unfold init_assistant at hinit
  split at hinit
  · exact Option.noConfusion hinit
  · rename_i base heq
    rw [dictLookup_mergeDicts] at heq
    split at hinit
    case isTrue hc =>
      injection hinit with h2
      injection h2 with h3 h4
      subst h4
      obtain ⟨w, hcc⟩ := Option.isSome_iff_exists.mp hc
      rw [hcc] at heq
      simp only [Option.some.injEq] at heq
      subst heq
      refine ⟨?_, ?_, ?_⟩
      · rintro ⟨hm, ht, hp⟩
        have hid : applyOverrides args w = w := by simp [applyOverrides, hm, ht, hp]
        simp [hid, dictUpdate_lookup_self regs.custom args.assistant_name w hcc]
      · simp [dictLookup_dictUpdate_ne regs.custom args.assistant_name n _ hn]
      · simp
    case isFalse hc =>
      injection hinit with h2
      injection h2 with h3 h4
      subst h4
      have hcc : dictLookup regs.custom args.assistant_name = none :=
        Option.not_isSome_iff_eq_none.mp (by simpa using hc)
      rw [hcc] at heq
      refine ⟨?_, ?_, ?_⟩
      · rintro ⟨hm, ht, hp⟩
        have hid : applyOverrides args base = base := by simp [applyOverrides, hm, ht, hp]
        simp [hid, dictUpdate_lookup_self regs.builtin args.assistant_name base heq]
      · simp
      · simp [dictLookup_dictUpdate_ne regs.builtin args.assistant_name n _ hn]

/-- Witness for the amended C2: with no overrides requested, resolving
writer leaves both registries exactly as they were, and the entry general
is untouched. -/
theorem c2_construction_frame_witness :
    init_assistant argsNull regsW = some (⟨cfgWriter⟩, regsW) ∧
    "general" ≠ argsNull.assistant_name ∧
    (((argsNull.model = none ∧ argsNull.temperature = none ∧ argsNull.top_p = none) →
        regsW = regsW) ∧
      dictLookup regsW.custom "general" = dictLookup regsW.custom "general" ∧
      dictLookup regsW.builtin "general" = dictLookup regsW.builtin "general") :=
  ⟨by decide, by decide,
    c2_construction_frame argsNull regsW ⟨cfgWriter⟩ regsW "general" (by decide) (by decide)⟩

/-- Claim C4: the assistant lookup table is the built-in registry overlaid
by the custom mapping; a name in the custom dict resolves to the custom
entry whole (no field-level merge), and a name only in the built-in
registry resolves to the built-in entry. -/
theorem c4_lookup_table_overlay (custom : AssistantDict) (name : String) :
    dictLookup (mergeDicts DEFAULT_ASSISTANTS custom) name =
      match dictLookup custom name with
      | some c => some c
      | none => dictLookup DEFAULT_ASSISTANTS name :=
  dictLookup_mergeDicts DEFAULT_ASSISTANTS custom name

/-- Whether a handler event is the error-severity diagnostic record. -/
def isErrorLogEvent : HandlerEvent → Bool
  | .logError _ _ _ => true
  | _ => false

/-- Whether a handler event is a print to standard output. -/
def isPrintEvent : HandlerEvent → Bool
  | .printMsg _ => true
  | _ => false

/-- Whether a handler event is the delegation to the saved default hook. -/
def isDelegateEvent : HandlerEvent → Bool
  | .delegateDefault _ _ _ => true
  | _ => false

/-- Claim C6: every intercepted exception produces exactly one
error-severity log record carrying the exception type, value and traceback,
exactly one printed apology message, and exactly one delegation to the
platform's original default hook, which comes last — the crash is never
suppressed. -/
theorem c6_exception_handler_contract (etype value tb : String) :
    (exception_handler etype value tb).countP isErrorLogEvent = 1 ∧
    HandlerEvent.logError etype value tb ∈ exception_handler etype value tb ∧
    (exception_handler etype value tb).countP isPrintEvent = 1 ∧
    HandlerEvent.printMsg APOLOGY_MSG ∈ exception_handler etype value tb ∧
    (exception_handler etype value tb).countP isDelegateEvent = 1 ∧
    (exception_handler etype value tb).getLast? =
      some (.delegateDefault etype value tb) := by
  refine ⟨?_, ?_, ?_, ?_, ?_, ?_⟩ <;>
    simp [exception_handler, isErrorLogEvent, isPrintEvent, isDelegateEvent,
      List.countP_cons, List.getLast?]

/-- Shared shape lemma: whenever argument parsing succeeds and the config's
credential is falsy, `main` takes the missing-credential path. -/
lemma main_exit_no_key (fe : Bool) (fc : GptCliConfig) (cl : CommandLine)
    (key0 : Option String) (args : CLIArgs)
    (hparse : parse_args (configOf fe fc) cl = .ok args)
    (hkey : pyTruthy (configOf fe fc).api_key = false) :
    main fe fc cl key0 =
      { outcome := .exitNoKey
        printed := [NO_API_KEY_MSG]
        loggingConfig := args.log_file.map (fun f => (f, args.log_level))
        markdownItLevel := if args.log_file.isSome then some "INFO" else none
        infoLogged := true
        openai_api_key := key0
        sessions := []
        loopCalls := 0
        assistantsConstructed := 1
        exitCode := some 1 } := by
  have hmem := (parse_args_ok _ _ _ hparse).2.1
  have hinit := init_assistant_isSome (configOf fe fc) args hmem
  obtain ⟨pr, hpr⟩ := Option.isSome_iff_exists.mp hinit
  obtain ⟨a, regs'⟩ := pr
  simp [main, hparse, hpr, hkey]

/-- Claim C3: every name in the union of dev, general and the custom keys
is accepted by argument resolution; any other supplied positional name
makes resolution fail with exit status 2, and no Assistant is ever
constructed on that path. -/
theorem c3_assistant_name_validation (fc : GptCliConfig) (cl : CommandLine) (n : String)
    (key0 : Option String)
    (hname : cl.assistant_name = some n) (hlv : logLevelOk cl = true) :
    (n ∈ assistantChoices fc →
      (parse_args fc cl).toOption.map CLIArgs.assistant_name = some n) ∧
    (n ∉ assistantChoices fc →
      parse_args fc cl = .error 2 ∧
      (main true fc cl key0).exitCode = some 2 ∧
      (main true fc cl key0).assistantsConstructed = 0 ∧
      (main true fc cl key0).sessions = [] ∧
      (main true fc cl key0).loopCalls = 0) := by
  have hget : cl.assistant_name.getD fc.default_assistant = n := by rw [hname]; rfl
  constructor
  · intro hmem
    unfold parse_args
    rw [hget, if_pos hmem]
    cases hl : cl.log_level with
    | none => simp [Except.toOption]
    | some lv =>
      have hlvmem : lv ∈ LOG_LEVELS := by
        simp [logLevelOk, hl] at hlv
        exact hlv
      simp [hlvmem, Except.toOption]
  · intro hmem
    have herr : parse_args fc cl = .error 2 := by
      unfold parse_args
      rw [hget, if_neg hmem]
    refine ⟨herr, ?_, ?_, ?_, ?_⟩ <;> simp [main, configOf, herr]

/-- Witness for C3 with the custom name writer supplied on the command line
of a config that defines it. -/
theorem c3_assistant_name_validation_witness :
    clW.assistant_name = some "writer" ∧
    logLevelOk clW = true ∧
    (("writer" ∈ assistantChoices fcKey →
        (parse_args fcKey clW).toOption.map CLIArgs.assistant_name = some "writer") ∧
      ("writer" ∉ assistantChoices fcKey →
        parse_args fcKey clW = .error 2 ∧
        (main true fcKey clW none).exitCode = some 2 ∧
        (main true fcKey clW none).assistantsConstructed = 0 ∧
        (main true fcKey clW none).sessions = [] ∧
        (main true fcKey clW none).loopCalls = 0)) :=
  ⟨rfl, rfl, c3_assistant_name_validation fcKey clW "writer" none rfl rfl⟩

/-- Claim C5 is false as stated: with no persisted config file, an
invocation naming an unknown assistant exits with the argument parser's
status 2 (and prints no instructional message), not with status 1 — so
bootstrap does not exit with status 1 regardless of other arguments. -/
theorem c5_no_config_exit_counterexample :
    (main false fcKey clBadName none).exitCode = some 2 ∧
    (main false fcKey clBadName none).exitCode ≠ some 1 ∧
    (main false fcKey clBadName none).printed = [] :=
  ⟨by decide, by decide, by decide⟩

/-- Claim C5 as amended: when the config in effect supplies no (truthy)
credential — in particular whenever no persisted config file exists, since
the all-default config carries no credential — every invocation that passes
argument resolution prints the fixed instructional message and exits with
status 1 without constructing or invoking the session; invocations that
fail argument resolution exit with the parser's status 2 instead. -/
theorem c5_missing_credential_exit (fe : Bool) (fc : GptCliConfig) (cl : CommandLine)
    (key0 : Option String) (args : CLIArgs)
    (hkey : fe = false ∨ pyTruthy (configOf fe fc).api_key = false)
    (hparse : parse_args (configOf fe fc) cl = .ok args) :
    (main fe fc cl key0).outcome = .exitNoKey ∧
    (main fe fc cl key0).printed = [NO_API_KEY_MSG] ∧
    (main fe fc cl key0).exitCode = some 1 ∧
    (main fe fc cl key0).sessions = [] ∧
    (main fe fc cl key0).loopCalls = 0 ∧
    (main fe fc cl key0).openai_api_key = key0 := by
  have hkey' : pyTruthy (configOf fe fc).api_key = false := by
    rcases hkey with hk | hk
    · subst hk
      simp [configOf, defaultGptCliConfig, pyTruthy]
    · exact hk
  have hm := main_exit_no_key fe fc cl key0 args hparse hkey'
  refine ⟨?_, ?_, ?_, ?_, ?_, ?_⟩ <;> simp [hm]

/-- Witness for the amended C5: no config file, default invocation. -/
theorem c5_missing_credential_exit_witness :
    (false = false ∨ pyTruthy (configOf false fcKey).api_key = false) ∧
    parse_args (configOf false fcKey) clGeneral = .ok argsGenDefault ∧
    ((main false fcKey clGeneral none).outcome = .exitNoKey ∧
      (main false fcKey clGeneral none).printed = [NO_API_KEY_MSG] ∧
      (main false fcKey clGeneral none).exitCode = some 1 ∧
      (main false fcKey clGeneral none).sessions = [] ∧
      (main false fcKey clGeneral none).loopCalls = 0 ∧
      (main false fcKey clGeneral none).openai_api_key = none) :=
  ⟨Or.inl rfl, rfl,
    c5_missing_credential_exit false fcKey clGeneral none argsGenDefault (Or.inl rfl) rfl⟩

/-- Claim C7: when the persisted config supplies a (truthy) credential,
bootstrap pushes it into the transport, constructs the session exactly once
with the resolved Assistant and markdown flag, and invokes its blocking
entry point exactly once. -/
theorem c7_session_invoked_once (fe : Bool) (fc : GptCliConfig) (cl : CommandLine)
    (key0 : Option String) (args : CLIArgs) (a : Assistant) (regs' : Registries)
    (hparse : parse_args (configOf fe fc) cl = .ok args)
    (hinit : init_assistant args
      { builtin := DEFAULT_ASSISTANTS, custom := (configOf fe fc).assistants } =
        some (a, regs'))
    (hkey : pyTruthy (configOf fe fc).api_key = true) :
    (main fe fc cl key0).outcome = .sessionRun ∧
    (main fe fc cl key0).openai_api_key = (configOf fe fc).api_key ∧
    (main fe fc cl key0).sessions = [(a, args.markdown)] ∧
    (main fe fc cl key0).loopCalls = 1 ∧
    (main fe fc cl key0).assistantsConstructed = 1 ∧
    (main fe fc cl key0).exitCode = none := by
  refine ⟨?_, ?_, ?_, ?_, ?_, ?_⟩ <;> simp [main, hparse, hinit, hkey]

/-- Witness for C7: config with key sk-test, writer with a temperature
override; the session is built once from the resolved assistant. -/
theorem c7_session_invoked_once_witness :
    parse_args (configOf true fcKey) clW = .ok argsW ∧
    init_assistant argsW
      { builtin := DEFAULT_ASSISTANTS, custom := (configOf true fcKey).assistants } =
        some (⟨cfgWriterOverridden⟩, regsW2) ∧
    pyTruthy (configOf true fcKey).api_key = true ∧
    ((main true fcKey clW none).outcome = .sessionRun ∧
      (main true fcKey clW none).openai_api_key = (configOf true fcKey).api_key ∧
      (main true fcKey clW none).sessions = [(⟨cfgWriterOverridden⟩, argsW.markdown)] ∧
      (main true fcKey clW none).loopCalls = 1 ∧
      (main true fcKey clW none).assistantsConstructed = 1 ∧
      (main true fcKey clW none).exitCode = none) :=
  ⟨rfl, by decide, rfl,
    c7_session_invoked_once true fcKey clW none argsW ⟨cfgWriterOverridden⟩ regsW2
      rfl (by decide) rfl⟩

/-- Claim C8: process-wide logging is initialized exactly when a log-file
path is present in the resolved arguments; when initialized it carries the
requested severity, and the markdown_it logger is forced to INFO. -/
theorem c8_logging_initialization (fe : Bool) (fc : GptCliConfig) (cl : CommandLine)
    (key0 : Option String) (args : CLIArgs)
    (hparse : parse_args (configOf fe fc) cl = .ok args) :
    (main fe fc cl key0).loggingConfig = args.log_file.map (fun f => (f, args.log_level)) ∧
    ((main fe fc cl key0).loggingConfig.isSome ↔ args.log_file.isSome = true) ∧
    (main fe fc cl key0).markdownItLevel =
      (if args.log_file.isSome then some "INFO" else none) := by
  have hpair : (main fe fc cl key0).loggingConfig =
        args.log_file.map (fun f => (f, args.log_level)) ∧
      (main fe fc cl key0).markdownItLevel =
        (if args.log_file.isSome then some "INFO" else none) := by
    cases hinitv : init_assistant args
        { builtin := DEFAULT_ASSISTANTS, custom := (configOf fe fc).assistants } with
    | none => constructor <;> simp [main, hparse, hinitv]
    | some pr =>
      obtain ⟨a, regs'⟩ := pr
      cases hkey : pyTruthy (configOf fe fc).api_key <;>
        constructor <;> simp [main, hparse, hinitv, hkey]
  refine ⟨hpair.1, ?_, hpair.2⟩
  rw [hpair.1]
  cases args.log_file <;> simp

/-- Witness for C8: a config-supplied log file gpt.log at level DEBUG. -/
theorem c8_logging_initialization_witness :
    parse_args (configOf true fcKey) clW = .ok argsW ∧
    ((main true fcKey clW none).loggingConfig =
        argsW.log_file.map (fun f => (f, argsW.log_level)) ∧
      ((main true fcKey clW none).loggingConfig.isSome ↔ argsW.log_file.isSome = true) ∧
      (main true fcKey clW none).markdownItLevel =
        (if argsW.log_file.isSome then some "INFO" else none)) :=
  ⟨rfl, c8_logging_initialization true fcKey clW none argsW rfl⟩

/-- Claim C9: for every persisted configuration, the parsed model,
temperature and top_p are null whenever the corresponding CLI flag is
absent, regardless of any value in the configuration. -/
theorem c9_override_defaults_null (config : GptCliConfig) (cl : CommandLine)
    (args : CLIArgs)
    (hm : cl.model = none) (ht : cl.temperature = none) (hp : cl.top_p = none)
    (hparse : parse_args config cl = .ok args) :
    args.model = none ∧ args.temperature = none ∧ args.top_p = none := by
  obtain ⟨-, -, h1, h2, h3, -, -⟩ := parse_args_ok config cl args hparse
  exact ⟨h1.trans hm, h2.trans ht, h3.trans hp⟩

/-- Witness for C9 against a config that does carry values for model and
temperature in its custom assistant. -/
theorem c9_override_defaults_null_witness :
    clGeneral.model = none ∧ clGeneral.temperature = none ∧ clGeneral.top_p = none ∧
    parse_args fcKey clGeneral = .ok argsGen ∧
    (argsGen.model = none ∧ argsGen.temperature = none ∧ argsGen.top_p = none) :=
  ⟨rfl, rfl, rfl, rfl,
    c9_override_defaults_null fcKey clGeneral argsGen rfl rfl rfl rfl⟩

/-- Claim C10: an API credential equal to the empty string is treated
exactly like an absent one — the presence test is truthiness: bootstrap
prints the instructional message, exits with status 1, pushes nothing to
the transport, and starts no session. -/
theorem c10_empty_string_credential (fc : GptCliConfig) (cl : CommandLine)
    (key0 : Option String) (args : CLIArgs)
    (hkey : fc.api_key = some "")
    (hparse : parse_args fc cl = .ok args) :
    (main true fc cl key0).outcome = .exitNoKey ∧
    (main true fc cl key0).printed = [NO_API_KEY_MSG] ∧
    (main true fc cl key0).exitCode = some 1 ∧
    (main true fc cl key0).openai_api_key = key0 ∧
    (main true fc cl key0).sessions = [] ∧
    (main true fc cl key0).loopCalls = 0 := by
  have hc : configOf true fc = fc := by simp [configOf]
  have hkey' : pyTruthy (configOf true fc).api_key = false := by
    rw [hc, hkey]
    rfl
  have hparse' : parse_args (configOf true fc) cl = .ok args := by
    rw [hc]
    exact hparse
  have hm := main_exit_no_key true fc cl key0 args hparse' hkey'
  refine ⟨?_, ?_, ?_, ?_, ?_, ?_⟩ <;> simp [hm]

/-- Witness for C10: fcKey with its credential replaced by the empty
string. -/
theorem c10_empty_string_credential_witness :
    ({ fcKey with api_key := some "" } : GptCliConfig).api_key = some "" ∧
    parse_args { fcKey with api_key := some "" } clW = .ok argsW ∧
    ((main true { fcKey with api_key := some "" } clW none).outcome = .exitNoKey ∧
      (main true { fcKey with api_key := some "" } clW none).printed = [NO_API_KEY_MSG] ∧
      (main true { fcKey with api_key := some "" } clW none).exitCode = some 1 ∧
      (main true { fcKey with api_key := some "" } clW none).openai_api_key = none ∧
      (main true { fcKey with api_key := some "" } clW none).sessions = [] ∧
      (main true { fcKey with api_key := some "" } clW none).loopCalls = 0) :=
  ⟨rfl, rfl,
    c10_empty_string_credential { fcKey with api_key := some "" } clW none argsW rfl rfl⟩

end GptCli
